import Mathlib

/-!
Verification of the shopifly insight pipeline: a shallow embedding of the
classification engine (`src/analysis/classifier.py`), the persistence layer
(`src/storage/sqlite.py`, `src/storage/airtable.py`), the interview schema
(`src/research/interview_schema.py`) and the opportunity reranker
(`src/analysis/interview_reranker.py`), with theorems about the embedded
definitions.

Conventions: Python floats are modelled as rationals (ℚ); `round(x, 2)` is
modelled as round-half-to-even at two decimals; timestamps and the
serialized metadata bag are abstracted as opaque strings; fallible code
returns `Option` / `Except`.
-/

/-! ## Python round(x, 2) over ℚ: round half to even at two decimals -/

/-- Round a rational to the nearest integer, ties to even (Python `round`). -/
def rhe (x : ℚ) : ℤ :=
  if x - ⌊x⌋ < 1/2 then ⌊x⌋
  else if 1/2 < x - ⌊x⌋ then ⌊x⌋ + 1
  else if 2 ∣ ⌊x⌋ then ⌊x⌋ else ⌊x⌋ + 1

/-- Python `round(x, 2)`. -/
def roundTo2 (x : ℚ) : ℚ := (rhe (x * 100) : ℚ) / 100

/-! ## Problem categories (`analysis/classifier.py`, `ProblemCategory`) -/

/-- The closed enumeration of merchant-problem categories. -/
inductive ProblemCategory where
  | admin | analytics | marketing | loyalty | payments | fulfillment
  | inventory | customer_support | design | seo | integrations
  | performance | pricing | other
deriving DecidableEq, Repr

/-- The string value of each enum member. -/
def ProblemCategory.value : ProblemCategory → String
  | .admin => "admin"
  | .analytics => "analytics"
  | .marketing => "marketing"
  | .loyalty => "loyalty"
  | .payments => "payments"
  | .fulfillment => "fulfillment"
  | .inventory => "inventory"
  | .customer_support => "customer_support"
  | .design => "design"
  | .seo => "seo"
  | .integrations => "integrations"
  | .performance => "performance"
  | .pricing => "pricing"
  | .other => "other"

/-- All members of the enum, in declaration order. -/
def ProblemCategory.members : List ProblemCategory :=
  [.admin, .analytics, .marketing, .loyalty, .payments, .fulfillment,
   .inventory, .customer_support, .design, .seo, .integrations,
   .performance, .pricing, .other]

/-- `ProblemCategory(s)`: look the string up among the enum values;
a `ValueError` (no match) is modelled as `none`. -/
def parseProblemCategory (s : String) : Option ProblemCategory :=
  ProblemCategory.members.find? (fun c => c.value == s)

/-! ## Raw records (`scrapers/base.py`) -/

/-- The closed enumeration of origin channels. -/
inductive DataSource where
  | reddit | app_store | twitter | community
deriving DecidableEq, Repr

def DataSource.value : DataSource → String
  | .reddit => "reddit"
  | .app_store => "shopify_app_store"
  | .twitter => "twitter"
  | .community => "shopify_community"

/-- Python string slicing `s[:n]`: the first `n` characters. -/
def pyTake (s : String) (n : Nat) : String := ⟨s.data.take n⟩

/-- One raw scraped data point.  Timestamps are abstracted as their ISO-8601
rendering and the open metadata bag as its serialized form. -/
structure RawDataPoint where
  source : DataSource
  source_id : String
  url : String
  title : Option String
  content : String
  author : Option String
  created_at : String
  scraped_at : String
  metadata : String
deriving DecidableEq, Repr

/-! ## Interview schema (`research/interview_schema.py`) -/

/-- How often the pain point is experienced. -/
inductive InterviewFrequency where
  | daily | weekly | monthly | occasionally
deriving DecidableEq, Repr

/-- Business impact level of the pain point. -/
inductive BusinessImpact where
  | high | medium | low
deriving DecidableEq, Repr

def BusinessImpact.value : BusinessImpact → String
  | .high => "high"
  | .medium => "medium"
  | .low => "low"

/-- A structured insight captured from a merchant interview. -/
structure InterviewInsight where
  interview_id : String
  participant_id : String
  recording_url : Option String
  pain_category : ProblemCategory
  pain_summary : String
  verbatim_quotes : List String
  frustration_level : ℤ
  frequency : InterviewFrequency
  business_impact : BusinessImpact
  current_workaround : Option String
  apps_tried : List String
  ideal_solution : Option String
  wtp_amount_low : Option ℤ
  wtp_amount_high : Option ℤ
  wtp_quote : Option String
  interviewer_notes : String
  follow_up_candidate : Bool
deriving DecidableEq, Repr

/-- Python `a or b` on two optional integers: `a` when it is truthy
(present and nonzero), otherwise `b`. -/
def pyOrInt (a b : Option ℤ) : Option ℤ :=
  match a with
  | some x => if x = 0 then b else some x
  | none => b

/-- `has_wtp_data`: either WTP bound is present. -/
def InterviewInsight.has_wtp_data (i : InterviewInsight) : Bool :=
  i.wtp_amount_low.isSome || i.wtp_amount_high.isSome

/-- `wtp_midpoint`: mean of both bounds when both are present, otherwise
`self.wtp_amount_low or self.wtp_amount_high` (Python truthiness). -/
def InterviewInsight.wtp_midpoint (i : InterviewInsight) : Option ℚ :=
  match i.wtp_amount_low, i.wtp_amount_high with
  | some l, some h => some (((l : ℚ) + (h : ℚ)) / 2)
  | _, _ => (pyOrInt i.wtp_amount_low i.wtp_amount_high).map (fun n => (n : ℚ))

/-! ## Classification engine (`analysis/classifier.py`) -/

/-- A classified and analyzed insight from raw data. -/
structure ClassifiedInsight where
  source_id : String
  source_url : String
  problem_statement : String
  category : ProblemCategory
  secondary_categories : List ProblemCategory
  frustration_level : ℤ
  clarity_score : ℤ
  willingness_to_pay : Bool
  wtp_quotes : List String
  current_workaround : Option String
  keywords : List String
  original_title : Option String
  content_snippet : String
deriving DecidableEq, Repr

/-- The JSON object a completion must decode to (the dict produced by
`json.loads` on the fence-stripped response text). -/
structure ParsedClassification where
  problem_statement : String
  category : String
  secondary_categories : List String
  frustration_level : ℤ
  clarity_score : ℤ
  willingness_to_pay : Bool
  wtp_quotes : List String
  current_workaround : Option String
  keywords : List String
deriving DecidableEq, Repr

/-- Outcome of one completion-service attempt, observed after fence
stripping and `json.loads`: `failure` covers network errors, rate limits
and malformed / non-JSON output (all raise inside the `try` block). -/
inductive CompletionResult where
  | failure (msg : String)
  | success (parsed : ParsedClassification)
deriving DecidableEq, Repr

/-- Construct the `ClassifiedInsight` from the parsed JSON object:
`ProblemCategory(...)` on the primary and each secondary category raises
`ValueError` on an unmapped string, and the pydantic `ge=1, le=5` bounds on
`frustration_level` / `clarity_score` raise a validation error; every such
exception is caught by the blanket handler, so failure is `none`. -/
def buildInsight (dp : RawDataPoint) (p : ParsedClassification) :
    Option ClassifiedInsight :=
  match parseProblemCategory p.category with
  | none => none
  | some cat =>
    match p.secondary_categories.mapM parseProblemCategory with
    | none => none
    | some secs =>
      if 1 ≤ p.frustration_level ∧ p.frustration_level ≤ 5 ∧
          1 ≤ p.clarity_score ∧ p.clarity_score ≤ 5 then
        some {
          source_id := dp.source_id
          source_url := dp.url
          problem_statement := p.problem_statement
          category := cat
          secondary_categories := secs
          frustration_level := p.frustration_level
          clarity_score := p.clarity_score
          willingness_to_pay := p.willingness_to_pay
          wtp_quotes := p.wtp_quotes
          current_workaround := p.current_workaround
          keywords := p.keywords
          original_title := dp.title
          content_snippet := pyTake dp.content 500 }
      else none

/-- The body of `Classifier.classify` for one attempt: everything sits in
one `try` whose handlers catch every exception and return `None`, so the
body never raises.  `svc` gives the completion outcome of each attempt. -/
def classifyBody (svc : Nat → CompletionResult) (attempt : Nat)
    (dp : RawDataPoint) : Option ClassifiedInsight :=
  match svc attempt with
  | .failure _ => none
  | .success parsed => buildInsight dp parsed

/-- The tenacity `@retry(stop=stop_after_attempt(3), ...)` wrapper: call the
wrapped function; if it raises and attempts remain, back off and call it
again; a raise on the final attempt propagates.  Returns the result paired
with the number of attempts consumed. -/
def runWithRetry (f : Nat → Except String (Option ClassifiedInsight)) :
    Nat → Nat → Except String (Option ClassifiedInsight) × Nat
  | used, 0 => (.error "no attempts remaining", used)
  | used, 1 => (f used, used + 1)
  | used, n + 2 =>
    match f used with
    | .ok v => (.ok v, used + 1)
    | .error _ => runWithRetry f (used + 1) (n + 1)

/-- `Classifier.classify`: the retried body.  The body returns normally on
every failure (exceptions are swallowed inside it), so the wrapper sees
`.ok` on the first attempt. -/
def classify (svc : Nat → CompletionResult) (dp : RawDataPoint) :
    Except String (Option ClassifiedInsight) × Nat :=
  runWithRetry (fun attempt => Except.ok (classifyBody svc attempt dp)) 0 3

/-- One awaited `self.classify(dp)` inside `classify_batch`, for a service
whose outcome depends only on the data point.  The `.error` branch is
unreachable (`classify` never raises, see `classify_eq`). -/
def classifyOnce (svc : RawDataPoint → CompletionResult)
    (dp : RawDataPoint) : Option ClassifiedInsight :=
  match (classify (fun _ => svc dp) dp).1 with
  | .ok v => v
  | .error _ => none

/-- The per-task results of `Classifier.classify_batch`, in submission
order.  `asyncio.as_completed` drains them in completion order, which is an
arbitrary permutation of this list; only successes are yielded. -/
def classifyBatchResults (svc : RawDataPoint → CompletionResult)
    (dps : List RawDataPoint) : List (Option ClassifiedInsight) :=
  dps.map (classifyOnce svc)

/-! ## SQLite storage backend (`storage/sqlite.py`) -/

/-- One row of the `raw_sources` table. -/
structure SQLiteRawRow where
  id : Nat
  source_id : String
  source : String
  url : String
  title : String
  content : String
  author : String
  created_at : String
  scraped_at : String
  metadata : String
  processed : Bool
deriving DecidableEq, Repr

/-- The `raw_sources` table with its AUTOINCREMENT counter. -/
structure SQLiteDB where
  raw_sources : List SQLiteRawRow
  next_raw_id : Nat
deriving DecidableEq, Repr

/-- `SQLiteStorage.save_raw_datapoint`: return the existing row id when a
row with the same `source_id` exists, otherwise insert a new row (content
capped at 100,000 characters) and return the fresh autoincrement id. -/
def SQLiteStorage.save_raw_datapoint (db : SQLiteDB) (dp : RawDataPoint) :
    String × SQLiteDB :=
  match db.raw_sources.find? (fun row => row.source_id == dp.source_id) with
  | some row => (toString row.id, db)
  | none =>
    let row : SQLiteRawRow := {
      id := db.next_raw_id
      source_id := dp.source_id
      source := dp.source.value
      url := dp.url
      title := dp.title.getD ""
      content := pyTake dp.content 100000
      author := dp.author.getD ""
      created_at := dp.created_at
      scraped_at := dp.scraped_at
      metadata := dp.metadata
      processed := false }
    (toString db.next_raw_id,
     { raw_sources := db.raw_sources ++ [row], next_raw_id := db.next_raw_id + 1 })

/-! ## Airtable storage backend (`storage/airtable.py`) -/

/-- The fields written to the `Raw Sources` Airtable table. -/
structure AirtableRawFields where
  source_id : String
  source : String
  url : String
  title : String
  content : String
  author : String
  created_at : String
  scraped_at : String
  metadata : String
deriving DecidableEq, Repr

/-- One Airtable record: a server-assigned record id plus its fields. -/
structure AirtableRecord where
  rec_id : String
  fields : AirtableRawFields
deriving DecidableEq, Repr

/-- The remote `Raw Sources` table; the server assigns record ids, modelled
by a counter rendered into the id string. -/
structure AirtableRawTable where
  records : List AirtableRecord
  next_rec : Nat
deriving DecidableEq, Repr

/-- `AirtableStorage.save_raw_datapoint`: `table.first` with a
`source_id` match formula, returning the existing record id when found,
otherwise `table.create` (content capped at the 100,000-character field
limit) returning the new record id. -/
def AirtableStorage.save_raw_datapoint (t : AirtableRawTable)
    (dp : RawDataPoint) : String × AirtableRawTable :=
  match t.records.find? (fun r => r.fields.source_id == dp.source_id) with
  | some r => (r.rec_id, t)
  | none =>
    let rec_id := "rec" ++ toString t.next_rec
    let newRec : AirtableRecord := {
      rec_id := rec_id
      fields := {
        source_id := dp.source_id
        source := dp.source.value
        url := dp.url
        title := dp.title.getD ""
        content := pyTake dp.content 100000
        author := dp.author.getD ""
        created_at := dp.created_at
        scraped_at := dp.scraped_at
        metadata := dp.metadata } }
    (rec_id, { records := t.records ++ [newRec], next_rec := t.next_rec + 1 })

/-! ## Opportunity reranker (`analysis/interview_reranker.py`) -/

/-- One scraped-insight record as read back from storage, seen through the
`dict.get` accesses the reranker performs (`category`, `frustration_level`,
`willingness_to_pay`); an absent key is `none`. -/
structure ScrapedRow where
  category : Option String
  frustration_level : Option ℤ
  willingness_to_pay : Option Bool
deriving DecidableEq, Repr

/-- `insight.get("category", "other")`. -/
def ScrapedRow.categoryKey (r : ScrapedRow) : String := r.category.getD "other"

/-- The reranker over its two inputs. -/
structure Reranker where
  scraped_insights : List ScrapedRow
  interview_insights : List InterviewInsight

/-- Base score component weights (65% total). -/
def WEIGHT_RELEVANCE : ℚ := 0.20

def WEIGHT_FRUSTRATION : ℚ := 0.15

def WEIGHT_ENGAGEMENT : ℚ := 0.15

def WEIGHT_WTP_SIGNAL : ℚ := 0.10

def WEIGHT_RECENCY : ℚ := 0.05

/-- Interview bonus component weights (35% total). -/
def WEIGHT_INTERVIEW_VALIDATED : ℚ := 0.15

def WEIGHT_INTERVIEW_WTP : ℚ := 0.10

def WEIGHT_BUSINESS_IMPACT : ℚ := 0.10

/-- The scraped insights grouped under category key `c`
(`_group_scraped_by_category`, read back for one key). -/
def scrapedByCategory (r : Reranker) (c : String) : List ScrapedRow :=
  r.scraped_insights.filter (fun i => i.categoryKey == c)

/-- The distinct keys of the scraped-category grouping. -/
def scrapedKeys (r : Reranker) : List String :=
  (r.scraped_insights.map ScrapedRow.categoryKey).dedup

/-- The interview insights grouped under category key `c`
(`_group_interview_by_category`, keyed by `pain_category.value`). -/
def interviewsByCategory (r : Reranker) (c : String) : List InterviewInsight :=
  r.interview_insights.filter (fun i => i.pain_category.value == c)

/-- The distinct keys of the interview-category grouping. -/
def interviewKeys (r : Reranker) : List String :=
  (r.interview_insights.map (fun i => i.pain_category.value)).dedup

/-- Metrics dict returned by `calculate_base_score` in the non-empty case. -/
structure BaseMetrics where
  scraped_count : Nat
  avg_frustration : ℚ
  wtp_signals : Nat
  avg_engagement : ℚ
deriving DecidableEq, Repr

/-- `max(len(v) for v in self._scraped_by_category.values())`, the largest
per-category scraped count (evaluated only when at least one category is
non-empty). -/
def maxCategoryCount (r : Reranker) : Nat :=
  ((scrapedKeys r).map (fun k => (scrapedByCategory r k).length)).foldr max 0

/-- Relevance: this category's count normalized by the maximum count. -/
def relevanceOf (r : Reranker) (c : String) : ℚ :=
  if 0 < maxCategoryCount r
  then ((scrapedByCategory r c).length : ℚ) / maxCategoryCount r else 0

/-- The per-insight frustration levels, `i.get("frustration_level", 3)`. -/
def frustrationsOf (r : Reranker) (c : String) : List ℚ :=
  (scrapedByCategory r c).map (fun i => ((i.frustration_level.getD 3 : ℤ) : ℚ))

/-- Mean frustration level (3 when the list is empty). -/
def avgFrustrationOf (r : Reranker) (c : String) : ℚ :=
  if (frustrationsOf r c).isEmpty then 3
  else (frustrationsOf r c).sum / (frustrationsOf r c).length

/-- Engagement proxy: count over 50, capped at 1. -/
def engagementOf (r : Reranker) (c : String) : ℚ :=
  min (((scrapedByCategory r c).length : ℚ) / 50) 1

/-- Number of scraped insights with a truthy `willingness_to_pay`. -/
def wtpCountOf (r : Reranker) (c : String) : Nat :=
  (scrapedByCategory r c).countP (fun i => i.willingness_to_pay.getD false)

/-- WTP signal: WTP count over 10, capped at 1. -/
def wtpSignalOf (r : Reranker) (c : String) : ℚ :=
  min ((wtpCountOf r c : ℚ) / 10) 1

/-- `calculate_base_score`: the 0–1-scale base score and its metrics; the
empty dict `{}` of the no-scraped-data branch is `none`; recency is the
fixed constant 0.5. -/
def calculateBaseScore (r : Reranker) (c : String) : ℚ × Option BaseMetrics :=
  if (scrapedByCategory r c).isEmpty then (0, none)
  else
    (relevanceOf r c * WEIGHT_RELEVANCE +
     (avgFrustrationOf r c / 5) * WEIGHT_FRUSTRATION +
     engagementOf r c * WEIGHT_ENGAGEMENT +
     wtpSignalOf r c * WEIGHT_WTP_SIGNAL +
     (0.5 : ℚ) * WEIGHT_RECENCY,
     some {
       scraped_count := (scrapedByCategory r c).length
       avg_frustration := roundTo2 (avgFrustrationOf r c)
       wtp_signals := wtpCountOf r c
       avg_engagement := roundTo2 (engagementOf r c) })

/-- `highest_impact` / `impact_bonus` from the membership `if`/`elif`
chain over the mapped impact list (lines 173–185). -/
def impactPair (impacts : List BusinessImpact) : Option BusinessImpact × ℚ :=
  if BusinessImpact.high ∈ impacts then (some .high, WEIGHT_BUSINESS_IMPACT)
  else if BusinessImpact.medium ∈ impacts then (some .medium, WEIGHT_BUSINESS_IMPACT * 0.5)
  else if BusinessImpact.low ∈ impacts then (some .low, WEIGHT_BUSINESS_IMPACT * 0.2)
  else (none, 0)

/-- Metrics dict returned by `calculate_interview_bonus`. -/
structure InterviewMetrics where
  interview_validated : Bool
  interview_count : Nat
  interview_wtp_confirmed : Bool
  interview_avg_wtp : Option ℚ
  business_impact : Option BusinessImpact
  key_quotes : List String
deriving DecidableEq, Repr

/-- `calculate_interview_bonus`: the 0–1-scale bonus and its metrics.  Note
`round(avg_wtp, 2) if avg_wtp else None`: the average passes a Python
truthiness test, so both `None` and an average of exactly 0 report `None`. -/
def calculateInterviewBonus (r : Reranker) (c : String) : ℚ × InterviewMetrics :=
  let interviews := interviewsByCategory r c
  if interviews.isEmpty then
    (0, { interview_validated := false, interview_count := 0,
          interview_wtp_confirmed := false, interview_avg_wtp := none,
          business_impact := none, key_quotes := [] })
  else
    let validated_bonus := WEIGHT_INTERVIEW_VALIDATED
    let wtp_insights := interviews.filter (fun i => i.has_wtp_data)
    let wtp_bonus : ℚ := if wtp_insights.isEmpty then 0 else WEIGHT_INTERVIEW_WTP
    let wtp_amounts : List ℚ := wtp_insights.filterMap (fun i => i.wtp_midpoint)
    let avg_wtp : Option ℚ :=
      if wtp_amounts.isEmpty then none
      else some (wtp_amounts.sum / wtp_amounts.length)
    let impacts : List BusinessImpact := interviews.map (fun i => i.business_impact)
    let pair := impactPair impacts
    let key_quotes : List String :=
      ((interviews.take 3).map (fun i => i.verbatim_quotes.take 2)).flatten
    let bonus := validated_bonus + wtp_bonus + pair.2
    (bonus, {
      interview_validated := true
      interview_count := interviews.length
      interview_wtp_confirmed := !wtp_insights.isEmpty
      interview_avg_wtp :=
        match avg_wtp with
        | none => none
        | some a => if a = 0 then none else some (roundTo2 a)
      business_impact := pair.1
      key_quotes := key_quotes.take 5 })

/-- A ranked product opportunity combining scraped and interview data. -/
structure RankedOpportunity where
  category : ProblemCategory
  base_score : ℚ
  interview_bonus : ℚ
  total_score : ℚ
  scraped_count : Nat
  avg_frustration : ℚ
  wtp_signals : Nat
  avg_engagement : ℚ
  interview_validated : Bool
  interview_count : Nat
  interview_wtp_confirmed : Bool
  interview_avg_wtp : Option ℚ
  business_impact : Option BusinessImpact
  key_quotes : List String
deriving DecidableEq, Repr

/-- The loop body of `rank_opportunities` for one successfully parsed
category key: combine scores (`total = base * 0.65 + bonus`), scale by 100,
round, and fill the `RankedOpportunity` from the metric dicts with the
`.get` defaults of the empty-dict case. -/
def mkOpportunity (r : Reranker) (cat : ProblemCategory) (key : String) :
    RankedOpportunity :=
  let base := calculateBaseScore r key
  let bonus := calculateInterviewBonus r key
  let total_score : ℚ := base.1 * 0.65 + bonus.1
  { category := cat
    base_score := roundTo2 (base.1 * 100)
    interview_bonus := roundTo2 (bonus.1 * 100)
    total_score := roundTo2 (total_score * 100)
    scraped_count := (base.2.map BaseMetrics.scraped_count).getD 0
    avg_frustration := (base.2.map BaseMetrics.avg_frustration).getD 0
    wtp_signals := (base.2.map BaseMetrics.wtp_signals).getD 0
    avg_engagement := (base.2.map BaseMetrics.avg_engagement).getD 0
    interview_validated := bonus.2.interview_validated
    interview_count := bonus.2.interview_count
    interview_wtp_confirmed := bonus.2.interview_wtp_confirmed
    interview_avg_wtp := bonus.2.interview_avg_wtp
    business_impact := bonus.2.business_impact
    key_quotes := bonus.2.key_quotes }

/-- The union of scraped-category and interview-category keys
(`set(...) | set(...)`; Python set iteration order is arbitrary, and no
claim depends on it, so one concrete order is fixed here). -/
def allCategoryKeys (r : Reranker) : List String :=
  (scrapedKeys r ++ interviewKeys r).dedup

/-- Stable descending insertion by `total_score`. -/
def insertByScoreDesc (o : RankedOpportunity) :
    List RankedOpportunity → List RankedOpportunity
  | [] => [o]
  | x :: xs =>
    if x.total_score < o.total_score then o :: x :: xs
    else x :: insertByScoreDesc o xs

/-- `opportunities.sort(key=..., reverse=True)`: stable descending sort. -/
def sortByScoreDesc : List RankedOpportunity → List RankedOpportunity
  | [] => []
  | x :: xs => insertByScoreDesc x (sortByScoreDesc xs)

/-- `rank_opportunities`: walk the key union, re-parse each key into the
closed enum (a `ValueError` drops the key via `continue`), build one
opportunity per surviving key, and sort by total score descending. -/
def rankOpportunities (r : Reranker) : List RankedOpportunity :=
  sortByScoreDesc
    ((allCategoryKeys r).filterMap
      (fun k => (parseProblemCategory k).map (fun c => mkOpportunity r c k)))

/-! ## Fixtures used by witnesses and counterexamples -/

/-- Interview-insight fixture: only the fields a claim varies are
parameters. -/
def sampleInsight (cat : ProblemCategory) (impact : BusinessImpact)
    (low high : Option ℤ) (quotes : List String) : InterviewInsight :=
  { interview_id := "int-1"
    participant_id := "p-1"
    recording_url := none
    pain_category := cat
    pain_summary := "reports are slow"
    verbatim_quotes := quotes
    frustration_level := 4
    frequency := .weekly
    business_impact := impact
    current_workaround := none
    apps_tried := []
    ideal_solution := none
    wtp_amount_low := low
    wtp_amount_high := high
    wtp_quote := none
    interviewer_notes := ""
    follow_up_candidate := false }

/-! ## Claim C6 -/

/-- Reranker fixture for claim C6: one category holding LOW, HIGH and
MEDIUM impact insights. -/
def rEx6 : Reranker :=
  { scraped_insights := []
    interview_insights :=
      [sampleInsight .analytics .low none none [],
       sampleInsight .analytics .high none none [],
       sampleInsight .analytics .medium none none []] }

/-! ## Claim C9 -/

/-- Reranker fixture for claim C9: a single interview insight whose WTP
bounds are both 0. -/
def rEx9 : Reranker :=
  { scraped_insights := []
    interview_insights := [sampleInsight .analytics .medium (some 0) (some 0) []] }

/-! ## Claim C1 -/

/-- Reranker fixture shared by the ranking-level witnesses: one scraped
analytics row and one analytics interview insight with WTP 20–40. -/
def rExRank : Reranker :=
  { scraped_insights :=
      [{ category := some "analytics", frustration_level := some 4,
         willingness_to_pay := some true }]
    interview_insights :=
      [sampleInsight .analytics .high (some 20) (some 40) ["quote one"]] }

/-- The single opportunity the fixture produces. -/
def oppExRank : RankedOpportunity := mkOpportunity rExRank .analytics "analytics"

/-! ## Claim C8 -/

/-- Reranker fixture for claim C8: one scraped row under an unmappable
category key and one analytics interview insight. -/
def rEx8 : Reranker :=
  { scraped_insights :=
      [{ category := some "bogus", frustration_level := some 3,
         willingness_to_pay := some false }]
    interview_insights := [sampleInsight .analytics .medium none none []] }

/-! ## Claim C2 -/

/-- Raw-data-point fixture. -/
def sampleDp (sid : String) : RawDataPoint :=
  { source := .reddit
    source_id := sid
    url := "https://example.com/" ++ sid
    title := some "Analytics pain"
    content := "I would pay 30 dollars a month for analytics"
    author := some "merchant1"
    created_at := "2024-01-01T00:00:00"
    scraped_at := "2024-01-02T00:00:00"
    metadata := "{}" }

/-- A well-formed parsed completion. -/
def sampleParsed : ParsedClassification :=
  { problem_statement := "Needs better analytics"
    category := "analytics"
    secondary_categories := []
    frustration_level := 4
    clarity_score := 5
    willingness_to_pay := true
    wtp_quotes := ["I would pay 30 dollars a month"]
    current_workaround := none
    keywords := ["analytics", "reports"]
    }

/-- Completion service for claim C2: the first attempt raises (network
error / rate limit), every later attempt would succeed. -/
def cexSvc : Nat → CompletionResult :=
  fun attempt =>
    if attempt = 0 then .failure "network error: rate limited"
    else .success sampleParsed

/-! ## Claim C4 -/

/-- Completion service fixture for claim C4: the item `r2` fails, the
others succeed. -/
def svcEx4 : RawDataPoint → CompletionResult :=
  fun dp =>
    if dp.source_id = "r2" then .failure "malformed JSON"
    else .success sampleParsed

/-- Batch fixture for claim C4: three raw records. -/
def dpsEx4 : List RawDataPoint := [sampleDp "r1", sampleDp "r2", sampleDp "r3"]

/-! ## Claim C3 -/

/-- Empty SQLite store fixture (autoincrement starts at 1). -/
def emptyDB : SQLiteDB := { raw_sources := [], next_raw_id := 1 }

/-- Empty Airtable store fixture. -/
def emptyTable : AirtableRawTable := { records := [], next_rec := 1 }

/-- Same natural key as `sampleDp "r1"` but different content. -/
def dpEx3 : RawDataPoint :=
  { sampleDp "r1" with content := "entirely different content this time" }

/-! ## Python round(x, 2) over ℚ: round half to even at two decimals -/

theorem abs_rhe_sub_le (x : ℚ) : |(rhe x : ℚ) - x| ≤ 1/2 := by
  have hfl : (⌊x⌋ : ℚ) ≤ x := Int.floor_le x
  have hfu : x < ⌊x⌋ + 1 := Int.lt_floor_add_one x
  unfold rhe
  split_ifs with h1 h2 h3 <;> rw [abs_le] <;> push_cast <;> constructor <;> linarith

theorem rhe_mem_Icc {x : ℚ} {a b : ℤ} (ha : (a : ℚ) ≤ x) (hb : x ≤ (b : ℚ)) :
    a ≤ rhe x ∧ rhe x ≤ b := by
  have h := abs_le.mp (abs_rhe_sub_le x)
  constructor
  · by_contra hc
    push_neg at hc
    have : rhe x ≤ a - 1 := by omega
    have : ((rhe x : ℤ) : ℚ) ≤ (a : ℚ) - 1 := by exact_mod_cast this
    linarith [h.1]
  · by_contra hc
    push_neg at hc
    have : b + 1 ≤ rhe x := by omega
    have : ((b : ℤ) : ℚ) + 1 ≤ ((rhe x : ℤ) : ℚ) := by exact_mod_cast this
    linarith [h.2]

theorem roundTo2_mem_Icc {x : ℚ} {a b : ℤ} (ha : (a : ℚ) ≤ x)
    (hb : x ≤ (b : ℚ)) : (a : ℚ) ≤ roundTo2 x ∧ roundTo2 x ≤ b := by
  have h := rhe_mem_Icc (x := x * 100) (a := a * 100) (b := b * 100)
    (by push_cast; linarith) (by push_cast; linarith)
  unfold roundTo2
  constructor
  · rw [le_div_iff₀ (by norm_num)]
    calc (a : ℚ) * 100 = ((a * 100 : ℤ) : ℚ) := by push_cast; ring
    _ ≤ (rhe (x * 100) : ℚ) := by exact_mod_cast h.1
  · rw [div_le_iff₀ (by norm_num)]
    calc (rhe (x * 100) : ℚ) ≤ ((b * 100 : ℤ) : ℚ) := by exact_mod_cast h.2
    _ = (b : ℚ) * 100 := by push_cast; ring

theorem abs_roundTo2_sub_le (x : ℚ) : |roundTo2 x - x| ≤ 1/200 := by
  have h := abs_rhe_sub_le (x * 100)
  unfold roundTo2
  rw [abs_le] at h ⊢
  constructor <;> [nlinarith [h.1]; nlinarith [h.2]]

/-! ## Problem categories (`analysis/classifier.py`, `ProblemCategory`) -/

theorem parseProblemCategory_value (c : ProblemCategory) :
    parseProblemCategory c.value = some c := by
  cases c <;> rfl

theorem parseProblemCategory_eq_some {s : String} {c : ProblemCategory}
    (h : parseProblemCategory s = some c) : c.value = s := by
  have := List.find?_some h
  simpa using this

/-! ## Raw records (`scrapers/base.py`) -/

theorem pyTake_length_le (s : String) (n : Nat) : (pyTake s n).length ≤ n := by
  show (s.data.take n).length ≤ n
  exact List.length_take_le n s.data

/-! ## Classification engine (`analysis/classifier.py`) -/

theorem classify_eq (svc : Nat → CompletionResult) (dp : RawDataPoint) :
    classify svc dp = (Except.ok (classifyBody svc 0 dp), 1) := rfl

theorem classifyOnce_source_id {svc : RawDataPoint → CompletionResult}
    {dp : RawDataPoint} {ins : ClassifiedInsight}
    (h : classifyOnce svc dp = some ins) : ins.source_id = dp.source_id := by
  unfold classifyOnce classify runWithRetry classifyBody at h
  simp only [] at h
  split at h
  · exact absurd h (by simp)
  · rename_i parsed heq
    unfold buildInsight at h
    split at h
    · exact absurd h (by simp)
    · split at h
      · exact absurd h (by simp)
      · split at h
        · cases h
          rfl
        · exact absurd h (by simp)

/-! ## Opportunity reranker (`analysis/interview_reranker.py`) -/

theorem mem_insertByScoreDesc {a o : RankedOpportunity}
    {l : List RankedOpportunity} :
    a ∈ insertByScoreDesc o l ↔ a = o ∨ a ∈ l := by
  induction l with
  | nil => simp [insertByScoreDesc]
  | cons x xs ih =>
    unfold insertByScoreDesc
    split
    · simp
    · simp only [List.mem_cons, ih]
      tauto

theorem mem_sortByScoreDesc {a : RankedOpportunity}
    {l : List RankedOpportunity} :
    a ∈ sortByScoreDesc l ↔ a ∈ l := by
  induction l with
  | nil => simp [sortByScoreDesc]
  | cons x xs ih =>
    unfold sortByScoreDesc
    rw [mem_insertByScoreDesc]
    simp [ih]

theorem mem_allCategoryKeys {r : Reranker} {k : String} :
    k ∈ allCategoryKeys r ↔ k ∈ scrapedKeys r ∨ k ∈ interviewKeys r := by
  unfold allCategoryKeys
  rw [List.mem_dedup, List.mem_append]

theorem mem_rankOpportunities {r : Reranker} {opp : RankedOpportunity} :
    opp ∈ rankOpportunities r ↔
      ∃ k ∈ allCategoryKeys r, ∃ c, parseProblemCategory k = some c ∧
        opp = mkOpportunity r c k := by
  unfold rankOpportunities
  rw [mem_sortByScoreDesc, List.mem_filterMap]
  constructor
  · rintro ⟨k, hk, hmap⟩
    rcases Option.map_eq_some'.mp hmap with ⟨c, hc, hopp⟩
    exact ⟨k, hk, c, hc, hopp.symm⟩
  · rintro ⟨k, hk, c, hc, hopp⟩
    exact ⟨k, hk, by rw [hc, hopp]; rfl⟩

/-! ## General list lemmas -/

theorem le_foldr_max {x : Nat} : ∀ {l : List Nat}, x ∈ l → x ≤ l.foldr max 0
  | a :: t, h => by
    rcases List.mem_cons.mp h with h | h
    · subst h
      exact le_max_left _ _
    · exact le_trans (le_foldr_max h) (le_max_right _ _)

theorem list_sum_ge {l : List ℚ} {a : ℚ} (h : ∀ x ∈ l, a ≤ x) :
    a * l.length ≤ l.sum := by
  induction l with
  | nil => simp
  | cons y t ih =>
    have hy := h y (List.mem_cons_self y t)
    have ht := ih (fun x hx => h x (List.mem_cons_of_mem y hx))
    simp only [List.sum_cons, List.length_cons]
    push_cast
    linarith

theorem list_sum_le {l : List ℚ} {b : ℚ} (h : ∀ x ∈ l, x ≤ b) :
    l.sum ≤ b * l.length := by
  induction l with
  | nil => simp
  | cons y t ih =>
    have hy := h y (List.mem_cons_self y t)
    have ht := ih (fun x hx => h x (List.mem_cons_of_mem y hx))
    simp only [List.sum_cons, List.length_cons]
    push_cast
    linarith

theorem list_avg_mem {l : List ℚ} (hne : l ≠ []) {a b : ℚ}
    (h : ∀ x ∈ l, a ≤ x ∧ x ≤ b) :
    a ≤ l.sum / l.length ∧ l.sum / l.length ≤ b := by
  have hlen : (0 : ℚ) < l.length := by
    have := List.length_pos.mpr hne
    exact_mod_cast this
  have h1 := list_sum_ge (fun x hx => (h x hx).1)
  have h2 := list_sum_le (fun x hx => (h x hx).2)
  constructor
  · rw [le_div_iff₀ hlen]
    linarith
  · rw [div_le_iff₀ hlen]
    linarith

theorem length_filterMap_id {α : Type} (l : List (Option α)) :
    (l.filterMap id).length = l.countP (fun o => o.isSome) := by
  induction l with
  | nil => rfl
  | cons o t ih =>
    cases o <;> simp [List.filterMap_cons, List.countP_cons, ih]

theorem countP_isSome_add_isNone {α : Type} (l : List (Option α)) :
    l.countP (fun o => o.isSome) + l.countP (fun o => o.isNone) = l.length := by
  induction l with
  | nil => rfl
  | cons o t ih =>
    cases o <;> simp [List.countP_cons, ih] <;> omega

/-! ## Claim C5 -/

/-- Claim C5, counterexample: an Interview Insight whose only present bound
is `wtp_amount_low = 0` has `wtp_midpoint = None`, not the present bound 0
as the claim states, because Python `or` treats 0 as falsy. -/
theorem C5_counterexample :
    (sampleInsight .analytics .medium (some 0) none []).wtp_midpoint = none ∧
    (sampleInsight .analytics .medium (some 0) none []).wtp_midpoint ≠
      some 0 := by
  refine ⟨rfl, fun h => ?_⟩
  rw [show (sampleInsight .analytics .medium (some 0) none []).wtp_midpoint
      = none from rfl] at h
  exact Option.noConfusion h

/-- Claim C5 as amended: `wtp_midpoint` is the mean of both bounds when both
are present; with exactly one bound present it equals that bound, except
that a present low bound equal to 0 with an absent high bound yields
`None` (the `or` truthiness drop); with neither bound present it is
`None`. -/
theorem C5_wtp_midpoint (i : InterviewInsight) :
    i.wtp_midpoint =
      match i.wtp_amount_low, i.wtp_amount_high with
      | some l, some h => some (((l : ℚ) + (h : ℚ)) / 2)
      | some l, none => if l = 0 then none else some (l : ℚ)
      | none, some h => some (h : ℚ)
      | none, none => none := by
  unfold InterviewInsight.wtp_midpoint pyOrInt
  rcases hL : i.wtp_amount_low with _ | l <;>
    rcases hH : i.wtp_amount_high with _ | h <;> simp [hL, hH]
  by_cases hl : l = 0 <;> simp [hl]

/-! ## Claim C6 -/

/-- Claim C6: for a category with at least one interview insight, the
business-impact component of the interview bonus is 0.10 when any insight
has HIGH impact (regardless of lower-impact insights), else 0.05 when any
has MEDIUM, else 0.02 when any has LOW, else 0; and the bonus is the sum of
the validation bonus, the WTP bonus and this component. -/
theorem C6_impact_precedence (r : Reranker) (c : String)
    (hne : interviewsByCategory r c ≠ []) :
    ((∃ i ∈ interviewsByCategory r c, i.business_impact = .high) →
      (impactPair ((interviewsByCategory r c).map
        (fun i => i.business_impact))).2 = 0.10) ∧
    (¬ (∃ i ∈ interviewsByCategory r c, i.business_impact = .high) →
      (∃ i ∈ interviewsByCategory r c, i.business_impact = .medium) →
      (impactPair ((interviewsByCategory r c).map
        (fun i => i.business_impact))).2 = 0.05) ∧
    (¬ (∃ i ∈ interviewsByCategory r c, i.business_impact = .high) →
      ¬ (∃ i ∈ interviewsByCategory r c, i.business_impact = .medium) →
      (∃ i ∈ interviewsByCategory r c, i.business_impact = .low) →
      (impactPair ((interviewsByCategory r c).map
        (fun i => i.business_impact))).2 = 0.02) ∧
    (¬ (∃ i ∈ interviewsByCategory r c, i.business_impact = .high) →
      ¬ (∃ i ∈ interviewsByCategory r c, i.business_impact = .medium) →
      ¬ (∃ i ∈ interviewsByCategory r c, i.business_impact = .low) →
      (impactPair ((interviewsByCategory r c).map
        (fun i => i.business_impact))).2 = 0) ∧
    (calculateInterviewBonus r c).1 =
      WEIGHT_INTERVIEW_VALIDATED +
      (if ((interviewsByCategory r c).filter
          (fun i => i.has_wtp_data)).isEmpty then 0
        else WEIGHT_INTERVIEW_WTP) +
      (impactPair ((interviewsByCategory r c).map
        (fun i => i.business_impact))).2 := by
  have hmem : ∀ b : BusinessImpact,
      b ∈ (interviewsByCategory r c).map (fun i => i.business_impact) ↔
      ∃ i ∈ interviewsByCategory r c, i.business_impact = b := by
    intro b
    simp [List.mem_map]
  have hempty : (interviewsByCategory r c).isEmpty = false := by
    simpa [List.isEmpty_iff] using hne
  refine ⟨fun hh => ?_, fun hh hm => ?_, fun hh hm hl => ?_,
    fun hh hm hl => ?_, ?_⟩
  · rw [impactPair, if_pos ((hmem _).mpr hh)]
    norm_num [WEIGHT_BUSINESS_IMPACT]
  · rw [impactPair, if_neg (fun hx => hh ((hmem _).mp hx)),
      if_pos ((hmem _).mpr hm)]
    norm_num [WEIGHT_BUSINESS_IMPACT]
  · rw [impactPair, if_neg (fun hx => hh ((hmem _).mp hx)),
      if_neg (fun hx => hm ((hmem _).mp hx)), if_pos ((hmem _).mpr hl)]
    norm_num [WEIGHT_BUSINESS_IMPACT]
  · rw [impactPair, if_neg (fun hx => hh ((hmem _).mp hx)),
      if_neg (fun hx => hm ((hmem _).mp hx)),
      if_neg (fun hx => hl ((hmem _).mp hx))]
  · simp [calculateInterviewBonus, hempty]

/-- Claim C6 witness: with impacts {LOW, HIGH, MEDIUM} in one category, the
impact component equals the HIGH tier 0.10. -/
theorem C6_witness :
    interviewsByCategory rEx6 "analytics" ≠ [] ∧
    (∃ i ∈ interviewsByCategory rEx6 "analytics",
      i.business_impact = .high) ∧
    (impactPair ((interviewsByCategory rEx6 "analytics").map
      (fun i => i.business_impact))).2 = 0.10 := by
  have hne : interviewsByCategory rEx6 "analytics" ≠ [] := by decide
  have hex : ∃ i ∈ interviewsByCategory rEx6 "analytics",
      i.business_impact = .high := by decide
  exact ⟨hne, hex, (C6_impact_precedence rEx6 "analytics" hne).1 hex⟩

/-! ## Claim C9 -/

/-- Claim C9 (implicit behaviour): when every qualifying interview insight
of a category has both WTP bounds equal to 0, the average WTP is 0, which
Python truthiness treats as absent, so `interview_avg_wtp` is reported
`None` even though `interview_wtp_confirmed` is reported `True`. -/
theorem C9_zero_wtp_average_dropped (r : Reranker) (c : String)
    (hex : ∃ i ∈ interviewsByCategory r c, i.has_wtp_data = true)
    (hall : ∀ i ∈ interviewsByCategory r c, i.has_wtp_data = true →
      i.wtp_amount_low = some 0 ∧ i.wtp_amount_high = some 0) :
    (calculateInterviewBonus r c).2.interview_avg_wtp = none ∧
    (calculateInterviewBonus r c).2.interview_wtp_confirmed = true := by
  obtain ⟨i0, hi0, hd0⟩ := hex
  have hne : interviewsByCategory r c ≠ [] := List.ne_nil_of_mem hi0
  have hempty : (interviewsByCategory r c).isEmpty = false := by
    simpa [List.isEmpty_iff] using hne
  have hi0w : i0 ∈ (interviewsByCategory r c).filter
      (fun i => i.has_wtp_data) := List.mem_filter.mpr ⟨hi0, hd0⟩
  have hwne : ((interviewsByCategory r c).filter
      (fun i => i.has_wtp_data)).isEmpty = false := by
    simpa [List.isEmpty_iff] using List.ne_nil_of_mem hi0w
  have hmid : ∀ i ∈ (interviewsByCategory r c).filter
      (fun i => i.has_wtp_data), i.wtp_midpoint = some 0 := by
    intro i hi
    obtain ⟨hmem, hdata⟩ := List.mem_filter.mp hi
    obtain ⟨hl, hh⟩ := hall i hmem hdata
    unfold InterviewInsight.wtp_midpoint
    rw [hl, hh]
    norm_num
  have hzero : ∀ q ∈ ((interviewsByCategory r c).filter
      (fun i => i.has_wtp_data)).filterMap (fun i => i.wtp_midpoint),
      q = 0 := by
    intro q hq
    obtain ⟨i, hi, hqi⟩ := List.mem_filterMap.mp hq
    rw [hmid i hi] at hqi
    exact (Option.some_inj.mp hqi).symm
  have h0mem : (0 : ℚ) ∈ ((interviewsByCategory r c).filter
      (fun i => i.has_wtp_data)).filterMap (fun i => i.wtp_midpoint) :=
    List.mem_filterMap.mpr ⟨i0, hi0w, hmid i0 hi0w⟩
  have hane : (((interviewsByCategory r c).filter
      (fun i => i.has_wtp_data)).filterMap
      (fun i => i.wtp_midpoint)).isEmpty = false := by
    simpa [List.isEmpty_iff] using List.ne_nil_of_mem h0mem
  have hsum : (((interviewsByCategory r c).filter
      (fun i => i.has_wtp_data)).filterMap
      (fun i => i.wtp_midpoint)).sum = 0 := List.sum_eq_zero hzero
  constructor
  · simp [calculateInterviewBonus, hempty, hane, hsum]
  · simp [calculateInterviewBonus, hempty, hwne]

/-- Claim C9 witness: with WTP data present but all midpoints 0, the
reported average WTP is `None` while WTP is reported confirmed. -/
theorem C9_witness :
    (∃ i ∈ interviewsByCategory rEx9 "analytics", i.has_wtp_data = true) ∧
    (∀ i ∈ interviewsByCategory rEx9 "analytics", i.has_wtp_data = true →
      i.wtp_amount_low = some 0 ∧ i.wtp_amount_high = some 0) ∧
    (calculateInterviewBonus rEx9 "analytics").2.interview_avg_wtp = none ∧
    (calculateInterviewBonus rEx9 "analytics").2.interview_wtp_confirmed
      = true := by
  have hex : ∃ i ∈ interviewsByCategory rEx9 "analytics",
      i.has_wtp_data = true := by decide
  have hall : ∀ i ∈ interviewsByCategory rEx9 "analytics",
      i.has_wtp_data = true →
      i.wtp_amount_low = some 0 ∧ i.wtp_amount_high = some 0 := by decide
  have h := C9_zero_wtp_average_dropped rEx9 "analytics" hex hall
  exact ⟨hex, hall, h.1, h.2⟩

/-! ## Claim C1 -/

/-- Claim C1: every opportunity in the reranker output reports
`total_score = round(base_0to1 * 0.65 * 100 + bonus_0to1 * 100, 2)` — the
0.65 factor applied at combination time on top of the base-score weights. -/
theorem C1_total_score_formula (r : Reranker) (opp : RankedOpportunity)
    (h : opp ∈ rankOpportunities r) :
    opp.total_score =
      roundTo2 ((calculateBaseScore r opp.category.value).1 * 0.65 * 100 +
        (calculateInterviewBonus r opp.category.value).1 * 100) := by
  obtain ⟨k, hk, c, hc, rfl⟩ := mem_rankOpportunities.mp h
  have hv : ProblemCategory.value c = k := parseProblemCategory_eq_some hc
  show (mkOpportunity r c k).total_score = _
  rw [show (mkOpportunity r c k).category = c from rfl, hv]
  show roundTo2 (((calculateBaseScore r k).1 * 0.65 +
    (calculateInterviewBonus r k).1) * 100) = _
  congr 1
  ring

theorem oppExRank_mem : oppExRank ∈ rankOpportunities rExRank := by
  rw [show rankOpportunities rExRank = [oppExRank] from rfl]
  exact List.mem_singleton.mpr rfl

/-- Claim C1 witness: the formula instantiated on the fixture ranking. -/
theorem C1_witness :
    oppExRank ∈ rankOpportunities rExRank ∧
    oppExRank.total_score =
      roundTo2 ((calculateBaseScore rExRank oppExRank.category.value).1
        * 0.65 * 100 +
        (calculateInterviewBonus rExRank oppExRank.category.value).1 * 100) :=
  ⟨oppExRank_mem, C1_total_score_formula rExRank oppExRank oppExRank_mem⟩

/-! ## Claim C8 -/

/-- Claim C8: the candidate key set is the union of scraped and interview
grouping keys; a category appears in the ranked output iff its value is in
that union, and a key that fails to re-parse into the closed enum is
silently excluded from the output entirely. -/
theorem C8_category_union (r : Reranker) (c : ProblemCategory) :
    ((∃ opp ∈ rankOpportunities r, opp.category = c) ↔
      c.value ∈ allCategoryKeys r) ∧
    (∀ k, k ∈ allCategoryKeys r ↔
      k ∈ scrapedKeys r ∨ k ∈ interviewKeys r) ∧
    (∀ k ∈ allCategoryKeys r, parseProblemCategory k = none →
      ∀ opp ∈ rankOpportunities r, opp.category.value ≠ k) := by
  refine ⟨⟨?_, ?_⟩, fun k => mem_allCategoryKeys, ?_⟩
  · rintro ⟨opp, hopp, hcat⟩
    obtain ⟨k, hk, c2, hc2, rfl⟩ := mem_rankOpportunities.mp hopp
    have : c2 = c := hcat
    subst this
    rw [parseProblemCategory_eq_some hc2]
    exact hk
  · intro hk
    refine ⟨mkOpportunity r c c.value, ?_, rfl⟩
    exact mem_rankOpportunities.mpr
      ⟨c.value, hk, c, parseProblemCategory_value c, rfl⟩
  · intro k hk hpk opp hopp heq
    obtain ⟨k2, hk2, c2, hc2, rfl⟩ := mem_rankOpportunities.mp hopp
    have hv : c2.value = k2 := parseProblemCategory_eq_some hc2
    have : k2 = k := by
      rw [← hv]
      exact heq
    rw [this] at hc2
    rw [hpk] at hc2
    exact Option.noConfusion hc2

/-- Claim C8 witness: on the fixture, `analytics` is ranked because its key
is in the union, while the unmappable key `bogus` is in the union but
appears nowhere in the ranked output. -/
theorem C8_witness :
    ((∃ opp ∈ rankOpportunities rEx8, opp.category = .analytics) ↔
      ProblemCategory.analytics.value ∈ allCategoryKeys rEx8) ∧
    ProblemCategory.analytics.value ∈ allCategoryKeys rEx8 ∧
    "bogus" ∈ allCategoryKeys rEx8 ∧
    parseProblemCategory "bogus" = none ∧
    ∀ opp ∈ rankOpportunities rEx8, opp.category.value ≠ "bogus" := by
  have h := C8_category_union rEx8 .analytics
  refine ⟨h.1, by decide, ?_, ?_, ?_⟩
  · decide
  · decide
  · exact h.2.2 "bogus" (by decide) (by decide)

/-! ## Claim C2 -/

/-- Claim C2 (code bug): with a service failing once and succeeding on the
next attempt, `classify` consumes exactly one attempt and returns the
terminal failure `None` — no retry happens, because the blanket exception
handler inside the function body swallows every failure before the tenacity
wrapper can observe it — even though a second attempt would have produced
an insight. -/
theorem C2_no_retry_on_failure :
    classify cexSvc (sampleDp "r1") = (Except.ok none, 1) ∧
    (classifyBody cexSvc 1 (sampleDp "r1")).isSome = true :=
  ⟨rfl, rfl⟩

/-! ## Claim C4 -/

/-- Claim C4: however `as_completed` interleaves the K per-item results, the
batch yields exactly K − F insights, where F is the number of items whose
single-item classification failed, and every yielded insight's `source_id`
comes from the input batch; failed items are omitted, not raised. -/
theorem C4_batch_completeness (svc : RawDataPoint → CompletionResult)
    (dps : List RawDataPoint) (completed : List (Option ClassifiedInsight))
    (hperm : completed.Perm (classifyBatchResults svc dps)) :
    (completed.filterMap id).length =
      dps.length -
        (classifyBatchResults svc dps).countP (fun o => o.isNone) ∧
    ∀ ins ∈ completed.filterMap id,
      ins.source_id ∈ dps.map RawDataPoint.source_id := by
  constructor
  · have h1 := length_filterMap_id completed
    have h2 := hperm.countP_eq (fun o => o.isSome)
    have h3 := countP_isSome_add_isNone (classifyBatchResults svc dps)
    have h4 : (classifyBatchResults svc dps).length = dps.length :=
      List.length_map _ _
    omega
  · intro ins hins
    obtain ⟨o, ho, hoi⟩ := List.mem_filterMap.mp hins
    have ho2 : o = some ins := hoi
    subst ho2
    have hmem : some ins ∈ classifyBatchResults svc dps := hperm.mem_iff.mp ho
    obtain ⟨dp, hdp, hcl⟩ := List.mem_map.mp hmem
    rw [List.mem_map]
    exact ⟨dp, hdp, (classifyOnce_source_id hcl).symm⟩

/-- Claim C4 witness: K = 3 records with F = 1 failure yield 2 insights, in
a completion order different from submission order. -/
theorem C4_witness :
    ((classifyBatchResults svcEx4 dpsEx4).reverse).Perm
      (classifyBatchResults svcEx4 dpsEx4) ∧
    (((classifyBatchResults svcEx4 dpsEx4).reverse).filterMap id).length =
      dpsEx4.length -
        (classifyBatchResults svcEx4 dpsEx4).countP (fun o => o.isNone) ∧
    ∀ ins ∈ ((classifyBatchResults svcEx4 dpsEx4).reverse).filterMap id,
      ins.source_id ∈ dpsEx4.map RawDataPoint.source_id := by
  have hperm := List.reverse_perm (classifyBatchResults svcEx4 dpsEx4)
  have h := C4_batch_completeness svcEx4 dpsEx4 _ hperm
  exact ⟨hperm, h.1, h.2⟩

/-! ## Claim C3 -/

/-- Claim C3: on both backends, saving a raw record whose `source_id` is not
yet stored and then saving any record with the same `source_id` again
returns the same identifier both times, performs no second write, and
leaves the raw-record count exactly one greater than before the first save
(upsert keyed by `source_id`, not full-content equality). -/
theorem C3_save_raw_idempotent (db : SQLiteDB) (t : AirtableRawTable)
    (dp1 dp2 : RawDataPoint) (hid : dp1.source_id = dp2.source_id)
    (hdb : db.raw_sources.find?
      (fun row => row.source_id == dp1.source_id) = none)
    (ht : t.records.find?
      (fun r => r.fields.source_id == dp1.source_id) = none) :
    ((SQLiteStorage.save_raw_datapoint
        (SQLiteStorage.save_raw_datapoint db dp1).2 dp2).1 =
      (SQLiteStorage.save_raw_datapoint db dp1).1 ∧
     (SQLiteStorage.save_raw_datapoint
        (SQLiteStorage.save_raw_datapoint db dp1).2 dp2).2 =
      (SQLiteStorage.save_raw_datapoint db dp1).2 ∧
     (SQLiteStorage.save_raw_datapoint db dp1).2.raw_sources.length =
      db.raw_sources.length + 1) ∧
    ((AirtableStorage.save_raw_datapoint
        (AirtableStorage.save_raw_datapoint t dp1).2 dp2).1 =
      (AirtableStorage.save_raw_datapoint t dp1).1 ∧
     (AirtableStorage.save_raw_datapoint
        (AirtableStorage.save_raw_datapoint t dp1).2 dp2).2 =
      (AirtableStorage.save_raw_datapoint t dp1).2 ∧
     (AirtableStorage.save_raw_datapoint t dp1).2.records.length =
      t.records.length + 1) := by
  have hdb2 : db.raw_sources.find?
      (fun row => row.source_id == dp2.source_id) = none := by
    rw [← hid]
    exact hdb
  have ht2 : t.records.find?
      (fun r => r.fields.source_id == dp2.source_id) = none := by
    rw [← hid]
    exact ht
  have hbeq : (dp1.source_id == dp2.source_id) = true := by
    rw [hid]
    exact beq_self_eq_true _
  constructor
  · simp only [SQLiteStorage.save_raw_datapoint, hdb]
    simp only [List.find?_append, hdb2, Option.none_or, List.find?_cons,
      List.find?_nil, hbeq]
    simp
  · simp only [AirtableStorage.save_raw_datapoint, ht]
    simp only [List.find?_append, ht2, Option.none_or, List.find?_cons,
      List.find?_nil, hbeq]
    simp

/-- Claim C3 witness: the double save on both empty backends, where the
second record shares only the `source_id`. -/
theorem C3_witness :
    (sampleDp "r1").source_id = dpEx3.source_id ∧
    emptyDB.raw_sources.find?
      (fun row => row.source_id == (sampleDp "r1").source_id) = none ∧
    emptyTable.records.find?
      (fun r => r.fields.source_id == (sampleDp "r1").source_id) = none ∧
    (((SQLiteStorage.save_raw_datapoint
        (SQLiteStorage.save_raw_datapoint emptyDB (sampleDp "r1")).2 dpEx3).1 =
      (SQLiteStorage.save_raw_datapoint emptyDB (sampleDp "r1")).1 ∧
     (SQLiteStorage.save_raw_datapoint
        (SQLiteStorage.save_raw_datapoint emptyDB (sampleDp "r1")).2 dpEx3).2 =
      (SQLiteStorage.save_raw_datapoint emptyDB (sampleDp "r1")).2 ∧
     (SQLiteStorage.save_raw_datapoint
        emptyDB (sampleDp "r1")).2.raw_sources.length =
      emptyDB.raw_sources.length + 1) ∧
    ((AirtableStorage.save_raw_datapoint
        (AirtableStorage.save_raw_datapoint emptyTable (sampleDp "r1")).2
        dpEx3).1 =
      (AirtableStorage.save_raw_datapoint emptyTable (sampleDp "r1")).1 ∧
     (AirtableStorage.save_raw_datapoint
        (AirtableStorage.save_raw_datapoint emptyTable (sampleDp "r1")).2
        dpEx3).2 =
      (AirtableStorage.save_raw_datapoint emptyTable (sampleDp "r1")).2 ∧
     (AirtableStorage.save_raw_datapoint
        emptyTable (sampleDp "r1")).2.records.length =
      emptyTable.records.length + 1)) :=
  ⟨rfl, rfl, rfl,
    C3_save_raw_idempotent emptyDB emptyTable (sampleDp "r1") dpEx3
      rfl rfl rfl⟩

/-! ## Claim C10 -/

/-- Claim C10 (implicit behaviour): on both backends a newly written raw
record stores only the first 100,000 characters of the record's content;
anything beyond that bound is silently dropped at write time. -/
theorem C10_content_truncated (db : SQLiteDB) (t : AirtableRawTable)
    (dp : RawDataPoint)
    (hdb : db.raw_sources.find?
      (fun row => row.source_id == dp.source_id) = none)
    (ht : t.records.find?
      (fun r => r.fields.source_id == dp.source_id) = none) :
    (∀ row ∈ (SQLiteStorage.save_raw_datapoint db dp).2.raw_sources,
      row ∈ db.raw_sources ∨
      (row.content = pyTake dp.content 100000 ∧
        row.content.length ≤ 100000)) ∧
    (∀ r2 ∈ (AirtableStorage.save_raw_datapoint t dp).2.records,
      r2 ∈ t.records ∨
      (r2.fields.content = pyTake dp.content 100000 ∧
        r2.fields.content.length ≤ 100000)) := by
  constructor
  · simp only [SQLiteStorage.save_raw_datapoint, hdb]
    intro row hrow
    rcases List.mem_append.mp hrow with h | h
    · exact Or.inl h
    · rcases List.mem_singleton.mp h with rfl
      exact Or.inr ⟨rfl, pyTake_length_le _ _⟩
  · simp only [AirtableStorage.save_raw_datapoint, ht]
    intro r2 hr2
    rcases List.mem_append.mp hr2 with h | h
    · exact Or.inl h
    · rcases List.mem_singleton.mp h with rfl
      exact Or.inr ⟨rfl, pyTake_length_le _ _⟩

/-- Claim C10 witness: the truncation fact instantiated on the empty
backends. -/
theorem C10_witness :
    emptyDB.raw_sources.find?
      (fun row => row.source_id == (sampleDp "r9").source_id) = none ∧
    emptyTable.records.find?
      (fun r => r.fields.source_id == (sampleDp "r9").source_id) = none ∧
    ((∀ row ∈ (SQLiteStorage.save_raw_datapoint
        emptyDB (sampleDp "r9")).2.raw_sources,
      row ∈ emptyDB.raw_sources ∨
      (row.content = pyTake (sampleDp "r9").content 100000 ∧
        row.content.length ≤ 100000)) ∧
    (∀ r2 ∈ (AirtableStorage.save_raw_datapoint
        emptyTable (sampleDp "r9")).2.records,
      r2 ∈ emptyTable.records ∨
      (r2.fields.content = pyTake (sampleDp "r9").content 100000 ∧
        r2.fields.content.length ≤ 100000))) :=
  ⟨rfl, rfl, C10_content_truncated emptyDB emptyTable (sampleDp "r9") rfl rfl⟩

/-! ## Claim C7 -/

theorem mem_scrapedKeys_of_ne_nil {r : Reranker} {c : String}
    (hne : scrapedByCategory r c ≠ []) : c ∈ scrapedKeys r := by
  obtain ⟨i, hi⟩ := List.exists_mem_of_ne_nil _ hne
  obtain ⟨hmem, hkey⟩ := List.mem_filter.mp hi
  rw [scrapedKeys, List.mem_dedup]
  exact List.mem_map.mpr ⟨i, hmem, beq_iff_eq.mp hkey⟩

theorem length_le_maxCategoryCount {r : Reranker} {c : String}
    (hne : scrapedByCategory r c ≠ []) :
    (scrapedByCategory r c).length ≤ maxCategoryCount r :=
  le_foldr_max (List.mem_map.mpr ⟨c, mem_scrapedKeys_of_ne_nil hne, rfl⟩)

theorem relevanceOf_bounds {r : Reranker} {c : String}
    (hne : scrapedByCategory r c ≠ []) :
    0 ≤ relevanceOf r c ∧ relevanceOf r c ≤ 1 := by
  have hlen : 0 < (scrapedByCategory r c).length := List.length_pos.mpr hne
  have hmax : (scrapedByCategory r c).length ≤ maxCategoryCount r :=
    length_le_maxCategoryCount hne
  have hpos : 0 < maxCategoryCount r := lt_of_lt_of_le hlen hmax
  rw [relevanceOf, if_pos hpos]
  constructor
  · positivity
  · rw [div_le_one (by exact_mod_cast hpos)]
    exact_mod_cast hmax

theorem avgFrustrationOf_bounds {r : Reranker} {c : String}
    (hfr : ∀ row ∈ r.scraped_insights,
      (1 : ℤ) ≤ row.frustration_level.getD 3 ∧
      row.frustration_level.getD 3 ≤ 5) :
    1 ≤ avgFrustrationOf r c ∧ avgFrustrationOf r c ≤ 5 := by
  rw [avgFrustrationOf]
  split
  · norm_num
  · rename_i hne
    have hne2 : frustrationsOf r c ≠ [] := by
      simpa [List.isEmpty_iff] using hne
    refine list_avg_mem hne2 ?_
    intro x hx
    obtain ⟨i, hi, rfl⟩ := List.mem_map.mp hx
    have hmem : i ∈ r.scraped_insights := (List.mem_filter.mp hi).1
    obtain ⟨h1, h2⟩ := hfr i hmem
    constructor <;> exact_mod_cast (by assumption : _)

theorem engagementOf_bounds (r : Reranker) (c : String) :
    0 ≤ engagementOf r c ∧ engagementOf r c ≤ 1 :=
  ⟨le_min (by positivity) (by norm_num), min_le_right _ _⟩

theorem wtpSignalOf_bounds (r : Reranker) (c : String) :
    0 ≤ wtpSignalOf r c ∧ wtpSignalOf r c ≤ 1 :=
  ⟨le_min (by positivity) (by norm_num), min_le_right _ _⟩

theorem baseScore_bounds {r : Reranker} {c : String}
    (hfr : ∀ row ∈ r.scraped_insights,
      (1 : ℤ) ≤ row.frustration_level.getD 3 ∧
      row.frustration_level.getD 3 ≤ 5)
    (hne : scrapedByCategory r c ≠ []) :
    0 ≤ (calculateBaseScore r c).1 ∧ (calculateBaseScore r c).1 ≤ 0.65 := by
  have hcond : ¬ ((scrapedByCategory r c).isEmpty = true) := by
    simpa [List.isEmpty_iff] using hne
  rw [calculateBaseScore, if_neg hcond]
  obtain ⟨hr1, hr2⟩ := relevanceOf_bounds hne
  obtain ⟨hf1, hf2⟩ := avgFrustrationOf_bounds (c := c) hfr
  obtain ⟨he1, he2⟩ := engagementOf_bounds r c
  obtain ⟨hw1, hw2⟩ := wtpSignalOf_bounds r c
  rw [WEIGHT_RELEVANCE, WEIGHT_FRUSTRATION, WEIGHT_ENGAGEMENT,
    WEIGHT_WTP_SIGNAL, WEIGHT_RECENCY]
  constructor <;> [skip; skip] <;> dsimp only <;> nlinarith

theorem impactPair_bounds (impacts : List BusinessImpact) :
    0 ≤ (impactPair impacts).2 ∧ (impactPair impacts).2 ≤ 1/10 := by
  rw [impactPair]
  split_ifs <;> norm_num [WEIGHT_BUSINESS_IMPACT]

theorem interviewBonus_eq {r : Reranker} {c : String}
    (hne : interviewsByCategory r c ≠ []) :
    (calculateInterviewBonus r c).1 =
      WEIGHT_INTERVIEW_VALIDATED +
      (if ((interviewsByCategory r c).filter
          (fun i => i.has_wtp_data)).isEmpty then 0
        else WEIGHT_INTERVIEW_WTP) +
      (impactPair ((interviewsByCategory r c).map
        (fun i => i.business_impact))).2 := by
  have hempty : (interviewsByCategory r c).isEmpty = false := by
    simpa [List.isEmpty_iff] using hne
  simp [calculateInterviewBonus, hempty]

theorem interviewBonus_bounds {r : Reranker} {c : String}
    (hne : interviewsByCategory r c ≠ []) :
    0.15 ≤ (calculateInterviewBonus r c).1 ∧
    (calculateInterviewBonus r c).1 ≤ 0.35 := by
  rw [interviewBonus_eq hne]
  obtain ⟨hi1, hi2⟩ := impactPair_bounds
    ((interviewsByCategory r c).map (fun i => i.business_impact))
  rw [WEIGHT_INTERVIEW_VALIDATED, WEIGHT_INTERVIEW_WTP]
  split_ifs <;> constructor <;> norm_num <;> linarith

/-- Claim C7: assuming every scraped insight's frustration level lies in
[1,5], every ranked opportunity with scraped data reports a base score in
[0,100], every one with interview data reports an interview bonus in
[0,35], and the reported total score equals the documented linear
combination of the 0–1-scale components within 0.01. -/
theorem C7_score_bounds (r : Reranker)
    (hfr : ∀ row ∈ r.scraped_insights,
      (1 : ℤ) ≤ row.frustration_level.getD 3 ∧
      row.frustration_level.getD 3 ≤ 5)
    (opp : RankedOpportunity) (hopp : opp ∈ rankOpportunities r) :
    (scrapedByCategory r opp.category.value ≠ [] →
      0 ≤ opp.base_score ∧ opp.base_score ≤ 100) ∧
    (interviewsByCategory r opp.category.value ≠ [] →
      0 ≤ opp.interview_bonus ∧ opp.interview_bonus ≤ 35) ∧
    |opp.total_score -
      ((calculateBaseScore r opp.category.value).1 * 0.65 * 100 +
       (calculateInterviewBonus r opp.category.value).1 * 100)| ≤ 1/100 := by
  obtain ⟨k, hk, c, hc, rfl⟩ := mem_rankOpportunities.mp hopp
  have hcat : (mkOpportunity r c k).category.value = k := by
    rw [show (mkOpportunity r c k).category = c from rfl,
      parseProblemCategory_eq_some hc]
  rw [hcat]
  refine ⟨fun hneS => ?_, fun hneI => ?_, ?_⟩
  · obtain ⟨hb1, hb2⟩ := baseScore_bounds hfr hneS
    have h := roundTo2_mem_Icc (x := (calculateBaseScore r k).1 * 100)
      (a := 0) (b := 100) (by push_cast; nlinarith) (by push_cast; nlinarith)
    constructor
    · show (0 : ℚ) ≤ roundTo2 ((calculateBaseScore r k).1 * 100)
      exact_mod_cast h.1
    · show roundTo2 ((calculateBaseScore r k).1 * 100) ≤ (100 : ℚ)
      exact_mod_cast h.2
  · obtain ⟨hb1, hb2⟩ := interviewBonus_bounds hneI
    have h := roundTo2_mem_Icc (x := (calculateInterviewBonus r k).1 * 100)
      (a := 0) (b := 35) (by push_cast; nlinarith) (by push_cast; nlinarith)
    constructor
    · show (0 : ℚ) ≤ roundTo2 ((calculateInterviewBonus r k).1 * 100)
      exact_mod_cast h.1
    · show roundTo2 ((calculateInterviewBonus r k).1 * 100) ≤ (35 : ℚ)
      exact_mod_cast h.2
  · show |roundTo2 (((calculateBaseScore r k).1 * 0.65 +
        (calculateInterviewBonus r k).1) * 100) -
      ((calculateBaseScore r k).1 * 0.65 * 100 +
        (calculateInterviewBonus r k).1 * 100)| ≤ 1/100
    have heq : ((calculateBaseScore r k).1 * 0.65 +
        (calculateInterviewBonus r k).1) * 100 =
        (calculateBaseScore r k).1 * 0.65 * 100 +
        (calculateInterviewBonus r k).1 * 100 := by ring
    rw [heq]
    exact le_trans (abs_roundTo2_sub_le _) (by norm_num)

/-- Claim C7 witness: the bounds instantiated on the fixture ranking. -/
theorem C7_witness :
    (∀ row ∈ rExRank.scraped_insights,
      (1 : ℤ) ≤ row.frustration_level.getD 3 ∧
      row.frustration_level.getD 3 ≤ 5) ∧
    oppExRank ∈ rankOpportunities rExRank ∧
    scrapedByCategory rExRank oppExRank.category.value ≠ [] ∧
    interviewsByCategory rExRank oppExRank.category.value ≠ [] ∧
    (0 ≤ oppExRank.base_score ∧ oppExRank.base_score ≤ 100) ∧
    (0 ≤ oppExRank.interview_bonus ∧ oppExRank.interview_bonus ≤ 35) ∧
    |oppExRank.total_score -
      ((calculateBaseScore rExRank oppExRank.category.value).1 * 0.65 * 100 +
       (calculateInterviewBonus rExRank
         oppExRank.category.value).1 * 100)| ≤ 1/100 := by
  have hfr : ∀ row ∈ rExRank.scraped_insights,
      (1 : ℤ) ≤ row.frustration_level.getD 3 ∧
      row.frustration_level.getD 3 ≤ 5 := by decide
  have hS : scrapedByCategory rExRank oppExRank.category.value ≠ [] := by
    decide
  have hI : interviewsByCategory rExRank oppExRank.category.value ≠ [] := by
    decide
  have h := C7_score_bounds rExRank hfr oppExRank oppExRank_mem
  exact ⟨hfr, oppExRank_mem, hS, hI, h.1 hS, h.2.1 hI, h.2.2⟩
